import Mathlib

/-!
Shallow embedding of the build controller from
`pkg/build/controller.go` (OpenShift origin vendored in this repository).

The controller's `synchronize` function is the state machine deciding the
next status of a build from its current status, its input, and the observed
state of its execution unit (pod).  External collaborators (the strategy
table, the kube client's `CreatePod`/`GetPod`, and the wall clock read by
`time.Since`) are passed in explicitly, so `synchronize` becomes a pure
function.  Side effects (the pod specs submitted via `CreatePod`) are
returned as an explicit trace.
-/

/-- Build statuses, mirroring the `api.Build*` status constants used by
`controller.go` (`New`, `Pending`, `Running`, `Complete`, `Failed`, `Error`). -/
inductive BuildStatus where
  | BuildNew
  | BuildPending
  | BuildRunning
  | BuildComplete
  | BuildFailed
  | BuildError
deriving DecidableEq, Repr

open BuildStatus

/-- The build input: a build-type tag (`build.Input.Type`, a string in Go). -/
structure BuildInput where
  type : String
deriving DecidableEq, Repr

/-- A build, with the fields `controller.go` reads and writes:
`ID`, `Status`, `Input`, `PodID`, `CreationTimestamp`.
The creation timestamp is wall-clock time in nanoseconds (Go's `time.Time`
measured in `time.Duration` units). -/
structure Build where
  id : String
  status : BuildStatus
  input : BuildInput
  podID : String
  creationTimestamp : Int
deriving DecidableEq, Repr

/-- A container termination record (`info.State.Termination`), carrying the
exit code. -/
structure Termination where
  exitCode : Int
deriving DecidableEq, Repr

/-- One container's state inside a pod (`info.State`); `Termination` is a
nil-able pointer in Go, hence `Option`. -/
structure ContainerState where
  termination : Option Termination
deriving DecidableEq, Repr

/-- One entry of `pod.CurrentState.Info` (a container status record). -/
structure ContainerInfo where
  state : ContainerState
deriving DecidableEq, Repr

/-- The pod's current state: the pod-level status string and the per-container
info records (`pod.CurrentState.Status`, `pod.CurrentState.Info`). -/
structure PodCurrentState where
  status : String
  info : List ContainerInfo
deriving DecidableEq, Repr

/-- An execution unit ("pod") as observed by the controller. -/
structure Pod where
  currentState : PodCurrentState
deriving DecidableEq, Repr

/-- The `kapi.PodTerminated` status constant. -/
def PodTerminated : String := "Terminated"

/-- Decides whether `sub` occurs as a contiguous substring of `s`
(both given as character lists); embeds Go's
`strings.Index(s, sub) != -1`. -/
def strContains (sub : List Char) : List Char → Bool
  | [] => sub.isPrefixOf []
  | c :: rest => sub.isPrefixOf (c :: rest) || strContains sub rest

/-- Go's `strings.Index(msg, "already exists") != -1` test used by
`synchronize` to recognize a pod-creation conflict. -/
def errIsConflict (msg : String) : Bool :=
  strContains "already exists".toList msg.toList

/-- The build controller's configuration used by `synchronize`:
the strategy table (`buildStrategies`, keyed by build type; each strategy is
`CreateBuildPod`, which either produces a pod spec or fails with an error
message) and the timeout in seconds. -/
structure BuildController where
  buildStrategies : String → Option (Build → Except String Pod)
  timeout : Int

/-- The external world observed during one `synchronize` call:
the kube client's `CreatePod` (success or an error message) and
`GetPod` (a pod or an error message), and the current wall-clock time in
nanoseconds (read by `time.Since`). -/
structure SyncEnv where
  createPod : Pod → Except String Unit
  getPod : String → Except String Pod
  now : Int

/-- `hasTimeoutElapsed` from `controller.go`: computes
`elapsed := time.Since(build.CreationTimestamp)` (nanoseconds) and returns
`int(elapsed.Seconds()) > timeout`.  Go's `int(...)` conversion of the
float-valued seconds truncates toward zero, which is `Int.tdiv` on the
nanosecond count. -/
def hasTimeoutElapsed (now : Int) (build : Build) (timeout : Int) : Bool :=
  let elapsed := now - build.creationTimestamp
  Int.tdiv elapsed 1000000000 > timeout

/-- The result of one `synchronize` call: the build as possibly mutated by
`synchronize` (only `PodID` is ever written), the returned next status, the
returned error (as an `Option` of its message), and the trace of pod specs
submitted to `CreatePod` during the call. -/
structure SyncResult where
  build : Build
  nextStatus : BuildStatus
  errMsg : Option String
  podsCreated : List Pod
deriving Repr

/-- The exit-code loop at the end of `synchronize`'s Running branch:
starting from `BuildComplete`, scan `pod.CurrentState.Info` and switch to
`BuildFailed` on any container whose termination record has a non-zero exit
code (containers without a termination record are skipped). -/
def exitScan (l : List ContainerInfo) : BuildStatus :=
  l.foldl
    (fun st info =>
      match info.state.termination with
      | some t => if t.exitCode ≠ 0 then BuildFailed else st
      | none => st)
    BuildComplete

/-- `synchronize` from `controller.go`: the per-build state-machine step.
Each branch mirrors the Go `switch build.Status`. -/
def synchronize (bc : BuildController) (env : SyncEnv) (build : Build) :
    SyncResult :=
  match build.status with
  | BuildNew =>
      let b := { build with
        podID := "build-" ++ build.input.type ++ "-" ++ build.id }
      ⟨b, BuildPending, none, []⟩
  | BuildPending =>
      match bc.buildStrategies build.input.type with
      | none =>
          ⟨build, BuildError,
            some ("No build type for " ++ build.input.type), []⟩
      | some buildStrategy =>
          match buildStrategy build with
          | .error e => ⟨build, BuildFailed, some e, []⟩
          | .ok podSpec =>
              match env.createPod podSpec with
              | .error e =>
                  if errIsConflict e then
                    ⟨build, build.status, some e, [podSpec]⟩
                  else
                    ⟨build, BuildFailed, some e, [podSpec]⟩
              | .ok _ => ⟨build, BuildRunning, none, [podSpec]⟩
  | BuildRunning =>
      if hasTimeoutElapsed env.now build bc.timeout then
        ⟨build, BuildFailed, some "Build timed out", []⟩
      else
        match env.getPod build.podID with
        | .error _ =>
            ⟨build, build.status,
              some ("Error retrieving pod for build ID " ++ build.id), []⟩
        | .ok pod =>
            if pod.currentState.status ≠ PodTerminated then
              ⟨build, build.status, none, []⟩
            else
              ⟨build, exitScan pod.currentState.info, none, []⟩
  | BuildComplete => ⟨build, build.status, none, []⟩
  | BuildFailed => ⟨build, build.status, none, []⟩
  | BuildError => ⟨build, build.status, none, []⟩

/-- The per-build body of `watchBuilds`: call `synchronize`, and invoke the
registry's `UpdateBuild` (returned as `some` of the build written) only when
the computed next status differs from the current status. -/
def watchBuildsStep (bc : BuildController) (env : SyncEnv) (build : Build) :
    Option Build :=
  let r := synchronize bc env build
  if r.nextStatus ≠ build.status then
    some { r.build with status := r.nextStatus }
  else
    none

/-- One tick of `watchBuilds` over a listed set of builds: the sequence of
`UpdateBuild` calls issued (each build observes its own environment). -/
def tickUpdates (bc : BuildController) (envOf : Build → SyncEnv)
    (builds : List Build) : List Build :=
  builds.filterMap (fun b => watchBuildsStep bc (envOf b) b)

/-- A container record reports failure when it has a termination record with
a non-zero exit code (the test inside `synchronize`'s Running branch). -/
def containerFailed (info : ContainerInfo) : Bool :=
  match info.state.termination with
  | some t => decide (t.exitCode ≠ 0)
  | none => false

/-- A container failure record exists exactly when some termination record
has a non-zero exit code. -/
theorem containerFailed_iff (info : ContainerInfo) :
    containerFailed info = true ↔
      ∃ t, info.state.termination = some t ∧ t.exitCode ≠ 0 := by
  cases h : info.state.termination with
  | none => simp [containerFailed, h]
  | some t => simp [containerFailed, h]

/-- The exit-code scan inside `synchronize`'s Running branch equals: Failed
if some container failed, otherwise the initial accumulator. -/
theorem foldl_exitScan_eq (l : List ContainerInfo) (acc : BuildStatus) :
    l.foldl
      (fun st info =>
        match info.state.termination with
        | some t => if t.exitCode ≠ 0 then BuildFailed else st
        | none => st)
      acc
    = if l.any containerFailed then BuildFailed else acc := by
  induction l generalizing acc with
  | nil => simp
  | cons i t ih =>
    simp only [List.foldl_cons, List.any_cons, ih]
    cases h : i.state.termination with
    | none => simp [containerFailed, h]
    | some tm =>
      by_cases hz : tm.exitCode = 0
      · simp [containerFailed, h, hz]
      · simp [containerFailed, h, hz, ite_self]

/-- `exitScan` judges a container list Failed exactly when some container
failed, and Complete otherwise. -/
theorem exitScan_eq (l : List ContainerInfo) :
    exitScan l = if l.any containerFailed then BuildFailed else BuildComplete :=
  foldl_exitScan_eq l BuildComplete

/-- Some container of the list failed exactly when some container reports a
non-zero exit code. -/
theorem any_containerFailed_iff (l : List ContainerInfo) :
    l.any containerFailed = true ↔
      ∃ info ∈ l, ∃ t, info.state.termination = some t ∧ t.exitCode ≠ 0 := by
  simp only [List.any_eq_true, containerFailed_iff]

/-- No container of the list failed exactly when every reported exit code
is zero. -/
theorem any_containerFailed_eq_false_iff (l : List ContainerInfo) :
    l.any containerFailed = false ↔
      ∀ info ∈ l, ∀ t, info.state.termination = some t → t.exitCode = 0 := by
  rw [← Bool.not_eq_true, any_containerFailed_iff]
  push_neg
  simp

/-- Claim C1: a build with status New transitions in one `synchronize` step
to Pending, with `PodID` assigned deterministically as
`"build-" ++ input.type ++ "-" ++ id`; the assigned id is non-empty, and
recomputing it for the same build (under any controller and environment)
yields the same value. -/
theorem synchronize_new_assigns_pod_id (bc bc' : BuildController)
    (env env' : SyncEnv) (b : Build) (h : b.status = BuildNew) :
    (synchronize bc env b).nextStatus = BuildPending ∧
    (synchronize bc env b).build.podID =
      "build-" ++ b.input.type ++ "-" ++ b.id ∧
    (synchronize bc env b).build.podID ≠ "" ∧
    (synchronize bc env b).build.podID = (synchronize bc' env' b).build.podID := by
  have hs : ∀ bc0 : BuildController, ∀ env0 : SyncEnv,
      synchronize bc0 env0 b =
        ⟨{ b with podID := "build-" ++ b.input.type ++ "-" ++ b.id },
          BuildPending, none, []⟩ := by
    intro bc0 env0
    simp [synchronize, h]
  refine ⟨by rw [hs], by rw [hs], ?_, by rw [hs, hs]⟩
  rw [hs]
  intro hcon
  have hlen := congrArg String.length hcon
  simp only [String.length_append] at hlen
  have h6 : ("build-" : String).length = 6 := rfl
  have h0 : ("" : String).length = 0 := rfl
  omega

/-- Claim C2: a Pending build whose pod submission fails with a conflict
("already exists") keeps status Pending — the conflict is not surfaced as a
build failure. -/
theorem synchronize_pending_conflict (bc : BuildController) (env : SyncEnv)
    (b : Build) (strat : Build → Except String Pod) (podSpec : Pod)
    (e : String)
    (hb : b.status = BuildPending)
    (hs : bc.buildStrategies b.input.type = some strat)
    (hp : strat b = .ok podSpec)
    (hc : env.createPod podSpec = .error e)
    (hconf : errIsConflict e = true) :
    (synchronize bc env b).nextStatus = BuildPending := by
  simp [synchronize, hb, hs, hp, hc, hconf]

/-- Claim C4: a Running build past its timeout is moved to Failed with the
distinguishable reason "Build timed out", whatever the pod client would
report (the timeout check precedes and overrides the pod-state inspection). -/
theorem synchronize_running_timeout (bc : BuildController) (env : SyncEnv)
    (b : Build)
    (hb : b.status = BuildRunning)
    (ht : hasTimeoutElapsed env.now b bc.timeout = true) :
    (synchronize bc env b).nextStatus = BuildFailed ∧
    (synchronize bc env b).errMsg = some "Build timed out" := by
  simp [synchronize, hb, ht]

/-- Claim C5: Complete, Failed and Error are absorbing — `synchronize`
returns the current status unchanged for any controller and any observed
environment. -/
theorem synchronize_terminal_absorbing (bc : BuildController) (env : SyncEnv)
    (b : Build)
    (h : b.status = BuildComplete ∨ b.status = BuildFailed ∨
      b.status = BuildError) :
    (synchronize bc env b).nextStatus = b.status := by
  rcases h with h | h | h <;> simp [synchronize, h]

/-- Claim C6: a Pending build whose input type has no registered strategy is
moved to Error (not Failed), and no pod submission is attempted in that
pass. -/
theorem synchronize_pending_no_strategy (bc : BuildController) (env : SyncEnv)
    (b : Build)
    (hb : b.status = BuildPending)
    (hs : bc.buildStrategies b.input.type = none) :
    (synchronize bc env b).nextStatus = BuildError ∧
    (synchronize bc env b).nextStatus ≠ BuildFailed ∧
    (synchronize bc env b).podsCreated = [] := by
  simp [synchronize, hb, hs]

/-- Claim C7: a Running build (not past the timeout) whose pod fetch fails
keeps status Running — a transient retrieval error is never escalated to a
terminal status. -/
theorem synchronize_running_fetch_error (bc : BuildController) (env : SyncEnv)
    (b : Build) (e : String)
    (hb : b.status = BuildRunning)
    (ht : hasTimeoutElapsed env.now b bc.timeout = false)
    (hg : env.getPod b.podID = .error e) :
    (synchronize bc env b).nextStatus = BuildRunning := by
  simp [synchronize, hb, ht, hg]

/-- Claim C3: for a Running build (not past the timeout) whose pod is
terminal, the next status is Complete exactly when every container's
termination record reports exit code 0, and any non-zero exit code forces
Failed regardless of the other containers. -/
theorem synchronize_running_terminal_exit_codes (bc : BuildController)
    (env : SyncEnv) (b : Build) (pod : Pod)
    (hb : b.status = BuildRunning)
    (ht : hasTimeoutElapsed env.now b bc.timeout = false)
    (hg : env.getPod b.podID = .ok pod)
    (hterm : pod.currentState.status = PodTerminated) :
    ((synchronize bc env b).nextStatus = BuildComplete ↔
      ∀ info ∈ pod.currentState.info, ∀ t,
        info.state.termination = some t → t.exitCode = 0) ∧
    ((∃ info ∈ pod.currentState.info, ∃ t,
        info.state.termination = some t ∧ t.exitCode ≠ 0) →
      (synchronize bc env b).nextStatus = BuildFailed) := by
  have hs : (synchronize bc env b).nextStatus =
      if pod.currentState.info.any containerFailed then BuildFailed
      else BuildComplete := by
    rw [← exitScan_eq]
    simp [synchronize, hb, ht, hg, hterm]
  cases hA : pod.currentState.info.any containerFailed with
  | false =>
      rw [hs, if_neg (by simp [hA])]
      refine ⟨⟨fun _ => (any_containerFailed_eq_false_iff _).mp hA,
        fun _ => rfl⟩, ?_⟩
      intro hex
      exact absurd ((any_containerFailed_iff _).mpr hex) (by simp [hA])
  | true =>
      rw [hs, if_pos hA]
      obtain ⟨info, hmem, t, htr, hnz⟩ := (any_containerFailed_iff _).mp hA
      exact ⟨⟨fun hcon => absurd hcon (by decide),
        fun hall => absurd (hall info hmem t htr) hnz⟩, fun _ => rfl⟩

/-- Claim C9: a container with no termination record counts as success — for
a Running build (not past the timeout) with a terminal pod, the next status
is Complete whenever no container reports a non-zero exit code, even when
some or all containers (possibly none at all) carry no termination record. -/
theorem synchronize_running_terminal_missing_records (bc : BuildController)
    (env : SyncEnv) (b : Build) (pod : Pod)
    (hb : b.status = BuildRunning)
    (ht : hasTimeoutElapsed env.now b bc.timeout = false)
    (hg : env.getPod b.podID = .ok pod)
    (hterm : pod.currentState.status = PodTerminated)
    (hok : ∀ info ∈ pod.currentState.info, ∀ t,
      info.state.termination = some t → t.exitCode = 0) :
    (synchronize bc env b).nextStatus = BuildComplete := by
  have hA : pod.currentState.info.any containerFailed = false :=
    (any_containerFailed_eq_false_iff _).mpr hok
  simp [synchronize, hb, ht, hg, hterm, exitScan_eq, hA]

/-- Claim C8: the registry update is invoked only on a status change — the
per-build body of `watchBuilds` issues no `UpdateBuild` call exactly when
the computed next status equals the current status, and a whole tick issues
the same update calls as the tick restricted to the builds whose status
changes. -/
theorem watchBuilds_update_only_on_change :
    (∀ (bc : BuildController) (env : SyncEnv) (b : Build),
      watchBuildsStep bc env b = none ↔
        (synchronize bc env b).nextStatus = b.status) ∧
    (∀ (bc : BuildController) (envOf : Build → SyncEnv)
        (builds : List Build),
      tickUpdates bc envOf builds =
        tickUpdates bc envOf (builds.filter
          (fun b =>
            decide ((synchronize bc (envOf b) b).nextStatus ≠ b.status)))) := by
  constructor
  · intro bc env b
    simp [watchBuildsStep]
  · intro bc envOf builds
    induction builds with
    | nil => rfl
    | cons b t ih =>
      by_cases h : (synchronize bc (envOf b) b).nextStatus = b.status
      · have hstep : watchBuildsStep bc (envOf b) b = none := by
          simp [watchBuildsStep, h]
        simpa [tickUpdates, List.filter_cons, List.filterMap_cons, h, hstep]
          using ih
      · have hstep : watchBuildsStep bc (envOf b) b =
            some { (synchronize bc (envOf b) b).build with
              status := (synchronize bc (envOf b) b).nextStatus } := by
          simp [watchBuildsStep, h]
        simpa [tickUpdates, List.filter_cons, List.filterMap_cons, h, hstep]
          using ih

/-- Claim C10: the timeout test truncates the elapsed time to whole seconds
and compares strictly — with nonnegative elapsed time, `hasTimeoutElapsed`
is true exactly when the floor of the elapsed seconds strictly exceeds the
configured timeout, and elapsed seconds equal to or below the timeout never
fire the timeout. -/
theorem hasTimeoutElapsed_strict_floor (now : Int) (b : Build) (timeout : Int)
    (h : 0 ≤ now - b.creationTimestamp) :
    (hasTimeoutElapsed now b timeout = true ↔
      timeout < (now - b.creationTimestamp) / 1000000000) ∧
    ((now - b.creationTimestamp) / 1000000000 ≤ timeout →
      hasTimeoutElapsed now b timeout = false) := by
  have htd : Int.tdiv (now - b.creationTimestamp) 1000000000 =
      (now - b.creationTimestamp) / 1000000000 :=
    Int.tdiv_eq_ediv h (by decide)
  constructor
  · simp [hasTimeoutElapsed, htd]
  · intro hle
    have hnot : ¬ (timeout < (now - b.creationTimestamp) / 1000000000) := by
      omega
    simp [hasTimeoutElapsed, htd, hnot]

/-- Example pod spec with a non-terminal status and no container records. -/
def podRunningEx : Pod := ⟨⟨"Running", []⟩⟩

/-- Example terminal pod: one container reports exit code 2, another exit
code 0. -/
def podFailedEx : Pod := ⟨⟨"Terminated", [⟨⟨some ⟨2⟩⟩⟩, ⟨⟨some ⟨0⟩⟩⟩]⟩⟩

/-- Example terminal pod: one container has no termination record, another
reports exit code 0. -/
def podNoRecordEx : Pod := ⟨⟨"Terminated", [⟨⟨none⟩⟩, ⟨⟨some ⟨0⟩⟩⟩]⟩⟩

/-- A controller with an empty strategy table and a 10-second timeout. -/
def bcEmpty : BuildController := ⟨fun _ => none, 10⟩

/-- A controller whose table maps build type "T" to a strategy producing
`podRunningEx`. -/
def bcT : BuildController :=
  ⟨fun ty => if ty = "T" then some (fun _ => .ok podRunningEx) else none, 10⟩

/-- An environment where pod creation succeeds and pod fetch fails. -/
def envNeutral : SyncEnv := ⟨fun _ => .ok (), fun _ => .error "not found", 0⟩

/-- An environment where pod creation fails with an "already exists"
conflict. -/
def envConflict : SyncEnv :=
  ⟨fun _ => .error "pods build-T-b1 already exists",
    fun _ => .error "not found", 0⟩

/-- An environment observing `podFailedEx` five seconds in. -/
def envPodFailed : SyncEnv :=
  ⟨fun _ => .ok (), fun _ => .ok podFailedEx, 5000000000⟩

/-- An environment observing `podNoRecordEx` five seconds in. -/
def envPodNoRecord : SyncEnv :=
  ⟨fun _ => .ok (), fun _ => .ok podNoRecordEx, 5000000000⟩

/-- An environment whose pod fetch fails, five seconds in. -/
def envFetchErr : SyncEnv :=
  ⟨fun _ => .ok (), fun _ => .error "connection refused", 5000000000⟩

/-- An environment observing a still-running pod eleven seconds in. -/
def envLate : SyncEnv :=
  ⟨fun _ => .ok (), fun _ => .ok podRunningEx, 11000000000⟩

/-- Example builds in each relevant status, created at time 0. -/
def buildNewEx : Build := ⟨"b1", BuildNew, ⟨"T"⟩, "", 0⟩

/-- A Pending build whose pod id has already been assigned. -/
def buildPendingEx : Build := ⟨"b1", BuildPending, ⟨"T"⟩, "build-T-b1", 0⟩

/-- A Running build created at time 0. -/
def buildRunningEx : Build := ⟨"b1", BuildRunning, ⟨"T"⟩, "build-T-b1", 0⟩

/-- A Complete build. -/
def buildCompleteEx : Build := ⟨"b1", BuildComplete, ⟨"T"⟩, "build-T-b1", 0⟩

/-- Witness for claim C1 at the concrete build `buildNewEx`. -/
theorem synchronize_new_assigns_pod_id_witness :
    (synchronize bcEmpty envNeutral buildNewEx).nextStatus = BuildPending ∧
    (synchronize bcEmpty envNeutral buildNewEx).build.podID =
      "build-" ++ buildNewEx.input.type ++ "-" ++ buildNewEx.id ∧
    (synchronize bcEmpty envNeutral buildNewEx).build.podID ≠ "" ∧
    (synchronize bcEmpty envNeutral buildNewEx).build.podID =
      (synchronize bcT envConflict buildNewEx).build.podID :=
  synchronize_new_assigns_pod_id bcEmpty bcT envNeutral envConflict
    buildNewEx rfl

/-- Witness for claim C2 at the concrete build `buildPendingEx` under the
conflicting environment. -/
theorem synchronize_pending_conflict_witness :
    (synchronize bcT envConflict buildPendingEx).nextStatus = BuildPending :=
  synchronize_pending_conflict bcT envConflict buildPendingEx
    (fun _ => .ok podRunningEx) podRunningEx "pods build-T-b1 already exists"
    rfl rfl rfl rfl (by decide)

/-- Witness for claim C4: eleven seconds elapsed against a ten-second
timeout. -/
theorem synchronize_running_timeout_witness :
    (synchronize bcT envLate buildRunningEx).nextStatus = BuildFailed ∧
    (synchronize bcT envLate buildRunningEx).errMsg = some "Build timed out" :=
  synchronize_running_timeout bcT envLate buildRunningEx rfl (by decide)

/-- Witness for claim C5 at a Complete build. -/
theorem synchronize_terminal_absorbing_witness :
    (synchronize bcT envNeutral buildCompleteEx).nextStatus =
      buildCompleteEx.status :=
  synchronize_terminal_absorbing bcT envNeutral buildCompleteEx (Or.inl rfl)

/-- Witness for claim C6: a Pending build under an empty strategy table. -/
theorem synchronize_pending_no_strategy_witness :
    (synchronize bcEmpty envNeutral buildPendingEx).nextStatus = BuildError ∧
    (synchronize bcEmpty envNeutral buildPendingEx).nextStatus ≠ BuildFailed ∧
    (synchronize bcEmpty envNeutral buildPendingEx).podsCreated = [] :=
  synchronize_pending_no_strategy bcEmpty envNeutral buildPendingEx rfl rfl

/-- Witness for claim C7: a failing pod fetch five seconds in. -/
theorem synchronize_running_fetch_error_witness :
    (synchronize bcT envFetchErr buildRunningEx).nextStatus = BuildRunning :=
  synchronize_running_fetch_error bcT envFetchErr buildRunningEx
    "connection refused" rfl (by decide) rfl

/-- Witness for claim C3 at the terminal pod `podFailedEx`. -/
theorem synchronize_running_terminal_exit_codes_witness :
    ((synchronize bcT envPodFailed buildRunningEx).nextStatus =
        BuildComplete ↔
      ∀ info ∈ podFailedEx.currentState.info, ∀ t,
        info.state.termination = some t → t.exitCode = 0) ∧
    ((∃ info ∈ podFailedEx.currentState.info, ∃ t,
        info.state.termination = some t ∧ t.exitCode ≠ 0) →
      (synchronize bcT envPodFailed buildRunningEx).nextStatus =
        BuildFailed) :=
  synchronize_running_terminal_exit_codes bcT envPodFailed buildRunningEx
    podFailedEx rfl (by decide) rfl rfl

/-- Witness for claim C9 at the terminal pod `podNoRecordEx`, one of whose
containers carries no termination record. -/
theorem synchronize_running_terminal_missing_records_witness :
    (synchronize bcT envPodNoRecord buildRunningEx).nextStatus =
      BuildComplete :=
  synchronize_running_terminal_missing_records bcT envPodNoRecord
    buildRunningEx podNoRecordEx rfl (by decide) rfl rfl
    ((any_containerFailed_eq_false_iff _).mp (by decide))

/-- Witness for claim C10 at 10.5 elapsed seconds against a ten-second
timeout: truncation leaves exactly 10 seconds, which does not fire. -/
theorem hasTimeoutElapsed_strict_floor_witness :
    (hasTimeoutElapsed 10500000000 buildRunningEx 10 = true ↔
      10 < (10500000000 - buildRunningEx.creationTimestamp) / 1000000000) ∧
    ((10500000000 - buildRunningEx.creationTimestamp) / 1000000000 ≤ 10 →
      hasTimeoutElapsed 10500000000 buildRunningEx 10 = false) :=
  hasTimeoutElapsed_strict_floor 10500000000 buildRunningEx 10 (by decide)
